import Mathlib

/-!
Verification development for the hello-aman Alexa skill
(`helloaman/lambda/lambda_function.py`): a shallow embedding of the
inbound-event model, the eleven request handlers, the catch-all exception
handler and the first-match dispatch loop, with theorems checking the
specified behaviour of each routing and response path.

Conventions of the embedding:
* Strings are the exact Python string literals (adjacent-literal
  concatenation already performed); apostrophes are written `\x27`.
* A Python handler's `handle` returns `Except String Response`; a raised
  exception is `Except.error` carrying a description of the exception.
* APL layout documents are abstracted by their content: an environment
  `Env : String → String` maps a file path to the (fixed) document stored
  there, standing for `_load_apl_document`.
-/

/-- The request object types that occur in this skill, as carried in
`request_envelope.request.object_type`. -/
inductive RequestKind where
  | launchRequest
  | intentRequest
  | userEvent
  | sessionEndedRequest
deriving DecidableEq

/-- The wire string of each request type, used by `is_request_type`. -/
def RequestKind.typeString : RequestKind → String
  | .launchRequest => "LaunchRequest"
  | .intentRequest => "IntentRequest"
  | .userEvent => "Alexa.Presentation.APL.UserEvent"
  | .sessionEndedRequest => "SessionEndedRequest"

/-- One inbound request envelope, with the fields this skill reads:
the request type, the intent name (only meaningful for an IntentRequest),
the `source.id` of an APL UserEvent, whether
`get_supported_interfaces(handler_input).alexa_presentation_apl` is
non-None, and the token of `request_envelope.context.alexa_presentation_apl`
(`none` when that context is absent). -/
structure InboundEvent where
  kind : RequestKind
  intentName : Option String
  eventSourceId : Option String
  aplSupported : Bool
  aplContextToken : Option String
deriving DecidableEq

/-- One animated property, as in `AnimatedOpacityProperty(to=1.0)`; the
float `1.0` is represented exactly as the rational `1`.  The Python
keyword argument `to` is spelled `toValue` here because `to` is reserved
in Lean. -/
structure AnimatedOpacityProperty where
  toValue : Rat
deriving DecidableEq

/-- An `AnimateItemCommand(component_id=..., duration=..., value=[...])`. -/
structure AnimateItemCommand where
  component_id : String
  duration : Nat
  value : List AnimatedOpacityProperty
deriving DecidableEq

/-- A `SimpleCard(title, content)`. -/
structure SimpleCard where
  title : String
  content : String
deriving DecidableEq

/-- The two APL directive shapes used by the skill:
`RenderDocumentDirective(token, document)` (the document given by its
loaded content) and `ExecuteCommandsDirective(token, commands)`. -/
inductive Directive where
  | renderDocument (token : String) (document : String)
  | executeCommands (token : String) (commands : List AnimateItemCommand)
deriving DecidableEq

/-- The outbound response envelope: speech, optional card, optional
reprompt, the directive list, and the session-continuation flag. -/
structure Response where
  outputSpeech : Option String
  card : Option SimpleCard
  reprompt : Option String
  directives : List Directive
  shouldEndSession : Bool
deriving DecidableEq

/-- The accumulating state of `handler_input.response_builder`. -/
structure ResponseBuilder where
  outputSpeech : Option String
  card : Option SimpleCard
  reprompt : Option String
  directives : List Directive
deriving DecidableEq

/-- The fresh per-request builder. -/
def ResponseBuilder.empty : ResponseBuilder :=
  { outputSpeech := none, card := none, reprompt := none, directives := [] }

/-- The builder method `.speak(s)`. -/
def ResponseBuilder.speak (b : ResponseBuilder) (s : String) : ResponseBuilder :=
  { b with outputSpeech := some s }

/-- The builder method `.ask(s)`: sets the reprompt (and, in the SDK,
marks the session to stay open). -/
def ResponseBuilder.ask (b : ResponseBuilder) (s : String) : ResponseBuilder :=
  { b with reprompt := some s }

/-- The builder method `.set_card(c)`. -/
def ResponseBuilder.set_card (b : ResponseBuilder) (c : SimpleCard) : ResponseBuilder :=
  { b with card := some c }

/-- The builder method `.add_directive(d)`: appends to the directive list. -/
def ResponseBuilder.add_directive (b : ResponseBuilder) (d : Directive) : ResponseBuilder :=
  { b with directives := b.directives ++ [d] }

/-- Modelled from the spec: the builder finalization `.response` of the
SDK response factory, which is not part of `src/`.  Per the spec's data
model, `shouldEndSession` is derived: true unless a reprompt was set. -/
def ResponseBuilder.response (b : ResponseBuilder) : Response :=
  { outputSpeech := b.outputSpeech, card := b.card, reprompt := b.reprompt,
    directives := b.directives, shouldEndSession := b.reprompt.isNone }

/-- APL document file path `hello_world_doc_path`. -/
def hello_world_doc_path : String := "helloworldDocument.json"

/-- APL document file path `hello_world_button_doc_path`. -/
def hello_world_button_doc_path : String := "helloworldWithButtonDocument.json"

/-- Token `HELLO_WORLD_TOKEN` used when sending APL directives. -/
def HELLO_WORLD_TOKEN : String := "helloworldToken"

/-- Token `HELLO_WORLD_WITH_BUTTON_TOKEN` used when sending APL directives. -/
def HELLO_WORLD_WITH_BUTTON_TOKEN : String := "helloworldWithButtonToken"

/-- The read-only store of static layout documents: a map from file path
to document content. -/
def Env : Type := String → String

/-- The loader `_load_apl_document(file_path)`: reads the document at the
path from the static store. -/
def _load_apl_document (env : Env) (file_path : String) : String :=
  env file_path

/-- The SDK utility `is_request_type(t)`: compares the request object
type against `t`. -/
def is_request_type (t : String) (ev : InboundEvent) : Bool :=
  ev.kind.typeString == t

/-- The SDK utility `is_intent_name(n)`: the request is an IntentRequest
and its intent name equals `n`. -/
def is_intent_name (n : String) (ev : InboundEvent) : Bool :=
  is_request_type "IntentRequest" ev && ev.intentName == some n

/-- The SDK utility `get_intent_name`: the intent name of an
IntentRequest, `none` when the request is of another type or carries no
name (the Python utility raises in the former case; the sole caller
guards with `is_request_type "IntentRequest"`). -/
def get_intent_name (ev : InboundEvent) : Option String :=
  if ev.kind = .intentRequest then ev.intentName else none

/-- Python `speak_output += clause` when `speak_output` may be `None`:
appending to the absent value raises a TypeError, appending to a string
concatenates. -/
def optAppend (s : Option String) (clause : String) : Except String String :=
  match s with
  | none => Except.error "TypeError: unsupported operand types for +=: NoneType and str"
  | some t => Except.ok (t ++ clause)

/-- The predicate of `StartOverIntentHandler`: the intent is
`AMAZON.StartOverIntent`. -/
def StartOverIntentHandler.can_handle (ev : InboundEvent) : Bool :=
  is_intent_name "AMAZON.StartOverIntent" ev

/-- The `AnimateItemCommand` built by `StartOverIntentHandler.handle`:
animate `helloTextComponent` opacity to `1.0` over `3000` ms. -/
def animate_item_command : AnimateItemCommand :=
  { component_id := "helloTextComponent", duration := 3000,
    value := [{ toValue := 1 }] }

/-- The action of `StartOverIntentHandler`: `speak_output` starts as the
absent value `None`.  With APL support and the button document on screen,
it speaks a reset confirmation and adds an `ExecuteCommandsDirective`;
with APL support but another (or no) active document it speaks that there
is nothing to reset; without APL support the source appends a clause to
the still-absent `speak_output`, which raises a TypeError. -/
def StartOverIntentHandler.handle (ev : InboundEvent) : Except String Response :=
  let speak_output : Option String := none
  if ev.aplSupported then
    if ev.aplContextToken = some HELLO_WORLD_WITH_BUTTON_TOKEN then
      Except.ok ((ResponseBuilder.empty.add_directive
        (Directive.executeCommands HELLO_WORLD_WITH_BUTTON_TOKEN
          [animate_item_command])).speak
        "OK, I\x27m going to try to bring that text back into view.").response
    else
      Except.ok (ResponseBuilder.empty.speak
        ("Hmm, there isn\x27t anything for me to reset. Try invoking the " ++
         "\x27hello world with button intent\x27, then click the button " ++
         "and see what happens!")).response
  else
    (optAppend speak_output
      ("Hello, this example would be more interesting on a device with a " ++
       "screen. Try it on an Echo Show, Echo Spot or a Fire TV device.")).map
      fun s => (ResponseBuilder.empty.speak s).response

/-- The predicate of `HelloWorldButtonEventHandler`: an APL UserEvent
whose `source.id` is `fadeHelloTextButton`. -/
def HelloWorldButtonEventHandler.can_handle (ev : InboundEvent) : Bool :=
  if is_request_type "Alexa.Presentation.APL.UserEvent" ev then
    ev.eventSourceId == some "fadeHelloTextButton"
  else
    false

/-- The action of `HelloWorldButtonEventHandler`: thanks for the click
and sets a reprompt. -/
def HelloWorldButtonEventHandler.handle (ev : InboundEvent) : Except String Response :=
  Except.ok ((ResponseBuilder.empty.speak
    ("Thank you for clicking the button! I imagine you already noticed " ++
     "that the text faded away. Tell me to start over to bring it back!")).ask
    ("Tell me to start over if you want me to bring the text back into " ++
     "view. Or, you can just say hello again.")).response

/-- The predicate of `HelloWorldWithButtonIntentHandler`. -/
def HelloWorldWithButtonIntentHandler.can_handle (ev : InboundEvent) : Bool :=
  is_intent_name "HelloWorldWithButtonIntent" ev

/-- The action of `HelloWorldWithButtonIntentHandler`: speaks a greeting;
with APL support it renders the button document under
`HELLO_WORLD_WITH_BUTTON_TOKEN` and tailors the speech to the screen,
else it tailors the speech to the lack of one. -/
def HelloWorldWithButtonIntentHandler.handle (env : Env) (ev : InboundEvent) :
    Except String Response :=
  let speak_output := "Hello World!"
  if ev.aplSupported then
    Except.ok ((ResponseBuilder.empty.add_directive
      (Directive.renderDocument HELLO_WORLD_WITH_BUTTON_TOKEN
        (_load_apl_document env hello_world_button_doc_path))).speak
      (speak_output ++
       (" Welcome to Alexa Presentation Language. Click the button to see " ++
        "what happens!"))).response
  else
    Except.ok (ResponseBuilder.empty.speak
      (speak_output ++
       (" This example would be more interesting on a device with a " ++
        "screen, such as an Echo Show or Fire TV."))).response

/-- The predicate of `HelloWorldIntentHandler`. -/
def HelloWorldIntentHandler.can_handle (ev : InboundEvent) : Bool :=
  is_intent_name "HelloWorldIntent" ev

/-- The action of `HelloWorldIntentHandler`: speaks a greeting; with APL
support it renders the hello-world document under `HELLO_WORLD_TOKEN`
and tailors the speech to the screen, else it tailors the speech to the
lack of one. -/
def HelloWorldIntentHandler.handle (env : Env) (ev : InboundEvent) :
    Except String Response :=
  let speak_output := "Hello World!"
  if ev.aplSupported then
    Except.ok ((ResponseBuilder.empty.add_directive
      (Directive.renderDocument HELLO_WORLD_TOKEN
        (_load_apl_document env hello_world_doc_path))).speak
      (speak_output ++ " You should now also see my greeting on the screen.")).response
  else
    Except.ok (ResponseBuilder.empty.speak
      (speak_output ++
       (" This example would be more interesting on a device with a " ++
        "screen, such as an Echo Show or Fire TV."))).response

/-- The predicate of `LaunchRequestHandler`: the request type is
`LaunchRequest`. -/
def LaunchRequestHandler.can_handle (ev : InboundEvent) : Bool :=
  is_request_type "LaunchRequest" ev

/-- The action of `LaunchRequestHandler`: speaks the welcome text and
sets the same text as the reprompt. -/
def LaunchRequestHandler.handle (ev : InboundEvent) : Except String Response :=
  let speak_output := "Welcome Aman, you can say Hello or Help. Which would you like to try?"
  Except.ok ((ResponseBuilder.empty.speak speak_output).ask speak_output).response

/-- The predicate of `okIntentHandler`. -/
def okIntentHandler.can_handle (ev : InboundEvent) : Bool :=
  is_intent_name "okIntent" ev

/-- The action of `okIntentHandler`: fixed speech, no reprompt. -/
def okIntentHandler.handle (ev : InboundEvent) : Except String Response :=
  Except.ok (ResponseBuilder.empty.speak "Hello Aman ok!").response

/-- The predicate of `CardIntentHandler`. -/
def CardIntentHandler.can_handle (ev : InboundEvent) : Bool :=
  is_intent_name "CardIntent" ev

/-- The action of `CardIntentHandler`: fixed speech plus a `SimpleCard`. -/
def CardIntentHandler.handle (ev : InboundEvent) : Except String Response :=
  let speech_text := "This is the text Alexa speaks. Go to the Alexa app to see the card!"
  let card_title := "This is the Title of the Card"
  let card_text :=
    "This is the card content. This card just has plain text content.\r\n" ++
    "The content is formated with line breaks to improve readability."
  Except.ok ((ResponseBuilder.empty.speak speech_text).set_card
    { title := card_title, content := card_text }).response

/-- The predicate of `HelpIntentHandler`. -/
def HelpIntentHandler.can_handle (ev : InboundEvent) : Bool :=
  is_intent_name "AMAZON.HelpIntent" ev

/-- The action of `HelpIntentHandler`: fixed help speech with the same
text as reprompt. -/
def HelpIntentHandler.handle (ev : InboundEvent) : Except String Response :=
  let speak_output := "You can say hello to me! How can I help?"
  Except.ok ((ResponseBuilder.empty.speak speak_output).ask speak_output).response

/-- The predicate of `CancelOrStopIntentHandler`: the intent is
`AMAZON.CancelIntent` or `AMAZON.StopIntent`. -/
def CancelOrStopIntentHandler.can_handle (ev : InboundEvent) : Bool :=
  is_intent_name "AMAZON.CancelIntent" ev || is_intent_name "AMAZON.StopIntent" ev

/-- The action of `CancelOrStopIntentHandler`: goodbye speech, no
reprompt. -/
def CancelOrStopIntentHandler.handle (ev : InboundEvent) : Except String Response :=
  Except.ok (ResponseBuilder.empty.speak "Goodbye!").response

/-- The predicate of `SessionEndedRequestHandler`. -/
def SessionEndedRequestHandler.can_handle (ev : InboundEvent) : Bool :=
  is_request_type "SessionEndedRequest" ev

/-- The action of `SessionEndedRequestHandler`: the empty response. -/
def SessionEndedRequestHandler.handle (ev : InboundEvent) : Except String Response :=
  Except.ok ResponseBuilder.empty.response

/-- The predicate of `IntentReflectorHandler`: any IntentRequest. -/
def IntentReflectorHandler.can_handle (ev : InboundEvent) : Bool :=
  is_request_type "IntentRequest" ev

/-- The action of `IntentReflectorHandler`: echoes the intent name; when
the envelope carries no intent name the Python concatenation with the
absent value raises a TypeError. -/
def IntentReflectorHandler.handle (ev : InboundEvent) : Except String Response :=
  match get_intent_name ev with
  | some intent_name =>
      Except.ok (ResponseBuilder.empty.speak
        ("You just triggered " ++ intent_name ++ ".")).response
  | none => Except.error "TypeError: cannot concatenate str and NoneType"

/-- The predicate of `CatchAllExceptionHandler`: true for every event and
exception. -/
def CatchAllExceptionHandler.can_handle (ev : InboundEvent) (exc : String) : Bool :=
  true

/-- The action of `CatchAllExceptionHandler`: apologetic speech with the
same text as reprompt. -/
def CatchAllExceptionHandler.handle (ev : InboundEvent) (exc : String) : Response :=
  let speak_output := "Sorry, I had trouble doing what you asked. Please try again."
  ((ResponseBuilder.empty.speak speak_output).ask speak_output).response

/-- One registered request handler: the `can_handle` predicate paired
with the `handle` action. -/
structure Handler where
  canHandle : InboundEvent → Bool
  handleFn : InboundEvent → Except String Response

/-- The bundled `LaunchRequestHandler()`. -/
def LaunchRequestHandler.handler : Handler :=
  ⟨LaunchRequestHandler.can_handle, LaunchRequestHandler.handle⟩

/-- The bundled `HelloWorldIntentHandler()`. -/
def HelloWorldIntentHandler.handler (env : Env) : Handler :=
  ⟨HelloWorldIntentHandler.can_handle, HelloWorldIntentHandler.handle env⟩

/-- The bundled `HelloWorldWithButtonIntentHandler()`. -/
def HelloWorldWithButtonIntentHandler.handler (env : Env) : Handler :=
  ⟨HelloWorldWithButtonIntentHandler.can_handle,
   HelloWorldWithButtonIntentHandler.handle env⟩

/-- The bundled `HelloWorldButtonEventHandler()`. -/
def HelloWorldButtonEventHandler.handler : Handler :=
  ⟨HelloWorldButtonEventHandler.can_handle, HelloWorldButtonEventHandler.handle⟩

/-- The bundled `StartOverIntentHandler()`. -/
def StartOverIntentHandler.handler : Handler :=
  ⟨StartOverIntentHandler.can_handle, StartOverIntentHandler.handle⟩

/-- The bundled `okIntentHandler()`. -/
def okIntentHandler.handler : Handler :=
  ⟨okIntentHandler.can_handle, okIntentHandler.handle⟩

/-- The bundled `CardIntentHandler()`. -/
def CardIntentHandler.handler : Handler :=
  ⟨CardIntentHandler.can_handle, CardIntentHandler.handle⟩

/-- The bundled `HelpIntentHandler()`. -/
def HelpIntentHandler.handler : Handler :=
  ⟨HelpIntentHandler.can_handle, HelpIntentHandler.handle⟩

/-- The bundled `CancelOrStopIntentHandler()`. -/
def CancelOrStopIntentHandler.handler : Handler :=
  ⟨CancelOrStopIntentHandler.can_handle, CancelOrStopIntentHandler.handle⟩

/-- The bundled `SessionEndedRequestHandler()`. -/
def SessionEndedRequestHandler.handler : Handler :=
  ⟨SessionEndedRequestHandler.can_handle, SessionEndedRequestHandler.handle⟩

/-- The bundled `IntentReflectorHandler()`. -/
def IntentReflectorHandler.handler : Handler :=
  ⟨IntentReflectorHandler.can_handle, IntentReflectorHandler.handle⟩

/-- The handlers in the registration order of the `sb.add_request_handler`
calls: `IntentReflectorHandler` is last so it does not override the
custom intent handlers. -/
def skillHandlers (env : Env) : List Handler :=
  [LaunchRequestHandler.handler,
   HelloWorldIntentHandler.handler env,
   HelloWorldWithButtonIntentHandler.handler env,
   HelloWorldButtonEventHandler.handler,
   StartOverIntentHandler.handler,
   okIntentHandler.handler,
   CardIntentHandler.handler,
   HelpIntentHandler.handler,
   CancelOrStopIntentHandler.handler,
   SessionEndedRequestHandler.handler,
   IntentReflectorHandler.handler]

/-- Modelled from the spec: the scan of the SDK request dispatcher, which
is not part of `src/` — find the first registered handler, in order,
whose predicate matches, together with its position (`i` positions
already passed). -/
def selectHandlerAux (i : Nat) : List Handler → InboundEvent → Option (Nat × Handler)
  | [], _ => none
  | h :: hs, ev =>
      if h.canHandle ev then some (i, h) else selectHandlerAux (i + 1) hs ev

/-- Modelled from the spec: first-match handler selection of the SDK
dispatcher, starting at position `0`. -/
def selectHandler (handlers : List Handler) (ev : InboundEvent) :
    Option (Nat × Handler) :=
  selectHandlerAux 0 handlers ev

/-- The outcome of one dispatched turn: which request-handler actions ran
(by registration position), whether the fallback exception handler ran,
and the final response. -/
structure DispatchResult where
  executedActions : List Nat
  fallbackRan : Bool
  response : Response
deriving DecidableEq

/-- Modelled from the spec: the SDK dispatch loop, which is not part of
`src/`.  The first handler whose predicate matches has its action
invoked; if the action raises, or if no handler matches (a routing
failure, which per the `CatchAllExceptionHandler` docstring also reaches
the exception chain), the always-matching fallback produces the
response. -/
def dispatch (handlers : List Handler) (ev : InboundEvent) : DispatchResult :=
  match selectHandler handlers ev with
  | none =>
      { executedActions := [], fallbackRan := true,
        response := CatchAllExceptionHandler.handle ev
          "DispatchException: Couldn\x27t find handler that can handle the request" }
  | some (i, h) =>
      match h.handleFn ev with
      | Except.ok r => { executedActions := [i], fallbackRan := false, response := r }
      | Except.error e =>
          { executedActions := [i], fallbackRan := true,
            response := CatchAllExceptionHandler.handle ev e }

/-- Dispatch reduction when no handler predicate matches: the fallback
produces the response for the routing failure. -/
theorem dispatch_none (handlers : List Handler) (ev : InboundEvent)
    (hsel : selectHandler handlers ev = none) :
    dispatch handlers ev =
      { executedActions := [], fallbackRan := true,
        response := CatchAllExceptionHandler.handle ev
          "DispatchException: Couldn\x27t find handler that can handle the request" } := by
  unfold dispatch
  rw [hsel]

/-- Dispatch reduction when the selected handler's action returns
normally: its response is final and the fallback does not run. -/
theorem dispatch_ok (handlers : List Handler) (ev : InboundEvent) (i : Nat)
    (h : Handler) (r : Response)
    (hsel : selectHandler handlers ev = some (i, h))
    (hok : h.handleFn ev = Except.ok r) :
    dispatch handlers ev =
      { executedActions := [i], fallbackRan := false, response := r } := by
  simp only [dispatch, hsel, hok]

/-- Dispatch reduction when the selected handler's action raises: the
fallback produces the response. -/
theorem dispatch_error (handlers : List Handler) (ev : InboundEvent) (i : Nat)
    (h : Handler) (e : String)
    (hsel : selectHandler handlers ev = some (i, h))
    (herr : h.handleFn ev = Except.error e) :
    dispatch handlers ev =
      { executedActions := [i], fallbackRan := true,
        response := CatchAllExceptionHandler.handle ev e } := by
  simp only [dispatch, hsel, herr]

/-- Case analysis of one dispatched turn: at most one request-handler
action runs, and the fallback runs exactly when no predicate matched or
the selected action raised. -/
theorem dispatch_spec (handlers : List Handler) (ev : InboundEvent) :
    (dispatch handlers ev).executedActions.length ≤ 1 ∧
    ((dispatch handlers ev).fallbackRan = true ↔
      selectHandler handlers ev = none ∨
      ∃ i h, selectHandler handlers ev = some (i, h) ∧
        ∃ e, h.handleFn ev = Except.error e) := by
  rcases hsel : selectHandler handlers ev with _ | ⟨i, h⟩
  · rw [dispatch_none handlers ev hsel]
    exact ⟨by simp, by simp⟩
  · rcases hh : h.handleFn ev with e | r
    · rw [dispatch_error handlers ev i h e hsel hh]
      exact ⟨by simp, ⟨fun _ => Or.inr ⟨i, h, rfl, e, hh⟩, fun _ => rfl⟩⟩
    · rw [dispatch_ok handlers ev i h r hsel hh]
      refine ⟨by simp, ⟨fun hfa => Bool.noConfusion hfa, ?_⟩⟩
      rintro (hnone | ⟨i2, h2, heq, e2, herr⟩)
      · exact Option.noConfusion hnone
      · simp only [Option.some.injEq, Prod.mk.injEq] at heq
        obtain ⟨rfl, rfl⟩ := heq
        rw [hh] at herr
        exact Except.noConfusion herr

/-- Handler scan congruence: scanning two pointwise-equivalent handler
lists (equal predicates, and actions equal at the event) selects the same
position, with actions agreeing at the event. -/
theorem selectHandlerAux_congr (ev : InboundEvent) {l1 l2 : List Handler}
    (hf : List.Forall₂
      (fun a b => a.canHandle = b.canHandle ∧ a.handleFn ev = b.handleFn ev) l1 l2) :
    ∀ i : Nat,
      (selectHandlerAux i l1 ev = none ∧ selectHandlerAux i l2 ev = none) ∨
      ∃ j h1 h2, selectHandlerAux i l1 ev = some (j, h1) ∧
        selectHandlerAux i l2 ev = some (j, h2) ∧
        h1.handleFn ev = h2.handleFn ev := by
  induction hf with
  | nil => exact fun i => Or.inl ⟨rfl, rfl⟩
  | cons hab htl ih =>
      intro i
      rename_i a b t1 t2
      cases hca : a.canHandle ev with
      | true =>
          refine Or.inr ⟨i, a, b, ?_, ?_, hab.2⟩
          · simp [selectHandlerAux, hca]
          · simp [selectHandlerAux, ← hab.1, hca]
      | false =>
          rcases ih (i + 1) with ⟨hn1, hn2⟩ | ⟨j, h1, h2, hs1, hs2, hh⟩
          · exact Or.inl ⟨by simp [selectHandlerAux, hca, hn1],
              by simp [selectHandlerAux, ← hab.1, hca, hn2]⟩
          · exact Or.inr ⟨j, h1, h2, by simp [selectHandlerAux, hca, hs1],
              by simp [selectHandlerAux, ← hab.1, hca, hs2], hh⟩

/-- Dispatch congruence: two pointwise-equivalent handler lists dispatch
an event to the same outcome. -/
theorem dispatch_congr (ev : InboundEvent) {l1 l2 : List Handler}
    (hf : List.Forall₂
      (fun a b => a.canHandle = b.canHandle ∧ a.handleFn ev = b.handleFn ev) l1 l2) :
    dispatch l1 ev = dispatch l2 ev := by
  rcases selectHandlerAux_congr ev hf 0 with ⟨hn1, hn2⟩ | ⟨j, h1, h2, hs1, hs2, hh⟩
  · rw [dispatch_none l1 ev hn1, dispatch_none l2 ev hn2]
  · rcases hr : h1.handleFn ev with e | r
    · rw [dispatch_error l1 ev j h1 e hs1 hr,
        dispatch_error l2 ev j h2 e hs2 (hh ▸ hr)]
    · rw [dispatch_ok l1 ev j h1 r hs1 hr,
        dispatch_ok l2 ev j h2 r hs2 (hh ▸ hr)]

/-- Handler scan failure: when every predicate in the list rejects the
event, the scan selects nothing. -/
theorem selectHandlerAux_eq_none (ev : InboundEvent) :
    ∀ (l : List Handler) (i : Nat),
      (∀ h ∈ l, h.canHandle ev = false) → selectHandlerAux i l ev = none := by
  intro l
  induction l with
  | nil => intro i hall; rfl
  | cons a t ih =>
      intro i hall
      have hca : a.canHandle ev = false := hall a (List.mem_cons_self a t)
      simp [selectHandlerAux, hca]
      exact ih (i + 1) fun h hm => hall h (List.mem_cons_of_mem a hm)

/-- The action of `HelloWorldIntentHandler` reads the store only at
`hello_world_doc_path`. -/
theorem helloWorld_handle_reads_only_doc (env1 env2 : Env)
    (hdoc : env1 hello_world_doc_path = env2 hello_world_doc_path)
    (ev : InboundEvent) :
    HelloWorldIntentHandler.handle env1 ev = HelloWorldIntentHandler.handle env2 ev := by
  unfold HelloWorldIntentHandler.handle _load_apl_document
  cases ha : ev.aplSupported <;> simp [ha, hdoc]

/-- The action of `HelloWorldWithButtonIntentHandler` reads the store
only at `hello_world_button_doc_path`. -/
theorem helloWorldWithButton_handle_reads_only_doc (env1 env2 : Env)
    (hdoc : env1 hello_world_button_doc_path = env2 hello_world_button_doc_path)
    (ev : InboundEvent) :
    HelloWorldWithButtonIntentHandler.handle env1 ev =
      HelloWorldWithButtonIntentHandler.handle env2 ev := by
  unfold HelloWorldWithButtonIntentHandler.handle _load_apl_document
  cases ha : ev.aplSupported <;> simp [ha, hdoc]

/-- The empty document store used for concrete witnesses. -/
def envEmpty : Env := fun _ => ""

/-- A concrete CardIntent request. -/
def c1Event : InboundEvent :=
  { kind := .intentRequest, intentName := some "CardIntent",
    eventSourceId := none, aplSupported := false, aplContextToken := none }

/-- Claim C1: every IntentRequest named `CardIntent` is dispatched to
`CardIntentHandler` (registered at position 6) and never to
`IntentReflectorHandler` (registered last, at position 10), although the
reflector's predicate also matches any IntentRequest; the dispatcher
returns the card handler's response, the first match in registration
order. -/
theorem claim_C1 (env : Env) (ev : InboundEvent)
    (hk : ev.kind = RequestKind.intentRequest)
    (hn : ev.intentName = some "CardIntent") :
    selectHandler (skillHandlers env) ev = some (6, CardIntentHandler.handler) ∧
    (skillHandlers env)[10]? = some IntentReflectorHandler.handler ∧
    IntentReflectorHandler.can_handle ev = true ∧
    ∃ r, CardIntentHandler.handle ev = Except.ok r ∧
      dispatch (skillHandlers env) ev =
        { executedActions := [6], fallbackRan := false, response := r } := by
  obtain ⟨k, n, s, a, c⟩ := ev
  simp only at hk hn
  subst hk; subst hn
  exact ⟨rfl, rfl, rfl, _, rfl, rfl⟩

/-- Witness for claim C1 at a concrete CardIntent request. -/
theorem claim_C1_witness :
    c1Event.kind = RequestKind.intentRequest ∧
    c1Event.intentName = some "CardIntent" ∧
    (selectHandler (skillHandlers envEmpty) c1Event =
        some (6, CardIntentHandler.handler) ∧
      (skillHandlers envEmpty)[10]? = some IntentReflectorHandler.handler ∧
      IntentReflectorHandler.can_handle c1Event = true ∧
      ∃ r, CardIntentHandler.handle c1Event = Except.ok r ∧
        dispatch (skillHandlers envEmpty) c1Event =
          { executedActions := [6], fallbackRan := false, response := r }) :=
  ⟨rfl, rfl, claim_C1 envEmpty c1Event rfl rfl⟩

/-- A concrete HelloWorldIntent request from a device with a screen. -/
def c2Event : InboundEvent :=
  { kind := .intentRequest, intentName := some "HelloWorldIntent",
    eventSourceId := none, aplSupported := true, aplContextToken := none }

/-- Claim C2: a `HelloWorldIntent` request yields no directive on a
device without screen (APL) support and one render-document directive
carrying the token `helloworldToken` on a device with it; the speech is
"Hello World!" followed by the capability-appropriate clause. -/
theorem claim_C2 (env : Env) (ev : InboundEvent)
    (hk : ev.kind = RequestKind.intentRequest)
    (hn : ev.intentName = some "HelloWorldIntent") :
    (ev.aplSupported = false →
      (dispatch (skillHandlers env) ev).response.directives = [] ∧
      (dispatch (skillHandlers env) ev).response.outputSpeech =
        some ("Hello World!" ++
          (" This example would be more interesting on a device with a " ++
           "screen, such as an Echo Show or Fire TV."))) ∧
    (ev.aplSupported = true →
      (dispatch (skillHandlers env) ev).response.directives =
        [Directive.renderDocument HELLO_WORLD_TOKEN (env hello_world_doc_path)] ∧
      HELLO_WORLD_TOKEN = "helloworldToken" ∧
      (dispatch (skillHandlers env) ev).response.outputSpeech =
        some ("Hello World!" ++ " You should now also see my greeting on the screen.")) := by
  obtain ⟨k, n, s, a, c⟩ := ev
  simp only at hk hn
  subst hk; subst hn
  cases a with
  | false => exact ⟨fun _ => ⟨rfl, rfl⟩, fun hcontra => Bool.noConfusion hcontra⟩
  | true => exact ⟨fun hcontra => Bool.noConfusion hcontra, fun _ => ⟨rfl, rfl, rfl⟩⟩

/-- Witness for claim C2 at a concrete HelloWorldIntent request with
screen support. -/
theorem claim_C2_witness :
    c2Event.kind = RequestKind.intentRequest ∧
    c2Event.intentName = some "HelloWorldIntent" ∧
    ((c2Event.aplSupported = false →
      (dispatch (skillHandlers envEmpty) c2Event).response.directives = [] ∧
      (dispatch (skillHandlers envEmpty) c2Event).response.outputSpeech =
        some ("Hello World!" ++
          (" This example would be more interesting on a device with a " ++
           "screen, such as an Echo Show or Fire TV."))) ∧
    (c2Event.aplSupported = true →
      (dispatch (skillHandlers envEmpty) c2Event).response.directives =
        [Directive.renderDocument HELLO_WORLD_TOKEN (envEmpty hello_world_doc_path)] ∧
      HELLO_WORLD_TOKEN = "helloworldToken" ∧
      (dispatch (skillHandlers envEmpty) c2Event).response.outputSpeech =
        some ("Hello World!" ++ " You should now also see my greeting on the screen."))) :=
  ⟨rfl, rfl, claim_C2 envEmpty c2Event rfl rfl⟩

/-- Claim C3: a `AMAZON.StartOverIntent` request from a device with
screen support whose active visual context token is the button-layout
token yields the reset-confirming speech and exactly one
execute-commands directive at that same token, animating
`helloTextComponent` opacity to `1.0` over `3000` ms. -/
theorem claim_C3 (env : Env) (ev : InboundEvent)
    (hk : ev.kind = RequestKind.intentRequest)
    (hn : ev.intentName = some "AMAZON.StartOverIntent")
    (ha : ev.aplSupported = true)
    (hc : ev.aplContextToken = some HELLO_WORLD_WITH_BUTTON_TOKEN) :
    (dispatch (skillHandlers env) ev).response.outputSpeech =
      some "OK, I\x27m going to try to bring that text back into view." ∧
    (dispatch (skillHandlers env) ev).response.directives =
      [Directive.executeCommands HELLO_WORLD_WITH_BUTTON_TOKEN [animate_item_command]] ∧
    animate_item_command =
      { component_id := "helloTextComponent", duration := 3000,
        value := [{ toValue := 1 }] } ∧
    HELLO_WORLD_WITH_BUTTON_TOKEN = "helloworldWithButtonToken" := by
  obtain ⟨k, n, s, a, c⟩ := ev
  simp only at hk hn ha hc
  subst hk; subst hn; subst ha; subst hc
  exact ⟨rfl, rfl, rfl, rfl⟩

/-- A concrete StartOverIntent request with the button document active. -/
def c3Event : InboundEvent :=
  { kind := .intentRequest, intentName := some "AMAZON.StartOverIntent",
    eventSourceId := none, aplSupported := true,
    aplContextToken := some HELLO_WORLD_WITH_BUTTON_TOKEN }

/-- Witness for claim C3 at a concrete StartOverIntent request. -/
theorem claim_C3_witness :
    c3Event.kind = RequestKind.intentRequest ∧
    c3Event.intentName = some "AMAZON.StartOverIntent" ∧
    c3Event.aplSupported = true ∧
    c3Event.aplContextToken = some HELLO_WORLD_WITH_BUTTON_TOKEN ∧
    ((dispatch (skillHandlers envEmpty) c3Event).response.outputSpeech =
      some "OK, I\x27m going to try to bring that text back into view." ∧
    (dispatch (skillHandlers envEmpty) c3Event).response.directives =
      [Directive.executeCommands HELLO_WORLD_WITH_BUTTON_TOKEN [animate_item_command]] ∧
    animate_item_command =
      { component_id := "helloTextComponent", duration := 3000,
        value := [{ toValue := 1 }] } ∧
    HELLO_WORLD_WITH_BUTTON_TOKEN = "helloworldWithButtonToken") :=
  ⟨rfl, rfl, rfl, rfl, claim_C3 envEmpty c3Event rfl rfl rfl rfl⟩

/-- A concrete StartOverIntent request from a device without a screen. -/
def c4Event : InboundEvent :=
  { kind := .intentRequest, intentName := some "AMAZON.StartOverIntent",
    eventSourceId := none, aplSupported := false, aplContextToken := none }

/-- Claim C4 evaluation: on a no-screen `AMAZON.StartOverIntent` the
selected handler is `StartOverIntentHandler`, whose action appends the
screen-suggestion clause to the still-absent `speak_output` and so
raises a TypeError instead of returning speech; the turn falls back to
the apology response. -/
theorem claim_C4_eval :
    StartOverIntentHandler.handle c4Event =
      Except.error "TypeError: unsupported operand types for +=: NoneType and str" ∧
    selectHandler (skillHandlers envEmpty) c4Event =
      some (4, StartOverIntentHandler.handler) ∧
    (dispatch (skillHandlers envEmpty) c4Event).fallbackRan = true ∧
    (dispatch (skillHandlers envEmpty) c4Event).response.outputSpeech =
      some "Sorry, I had trouble doing what you asked. Please try again." :=
  ⟨rfl, rfl, rfl, rfl⟩

/-- A concrete request whose selected handler's action raises: a
no-screen StartOverIntent. -/
def c5Event : InboundEvent :=
  { kind := .intentRequest, intentName := some "AMAZON.StartOverIntent",
    eventSourceId := none, aplSupported := false, aplContextToken := none }

/-- Claim C5: whenever the selected handler's action raises, the
dispatcher catches the failure and the final response carries the fixed
apologetic speech with the same text as reprompt; the fallback exception
handler's predicate accepts every event/exception pair. -/
theorem claim_C5 (env : Env) (ev : InboundEvent) (i : Nat) (h : Handler) (e : String)
    (hsel : selectHandler (skillHandlers env) ev = some (i, h))
    (herr : h.handleFn ev = Except.error e) :
    (dispatch (skillHandlers env) ev).response.outputSpeech =
      some "Sorry, I had trouble doing what you asked. Please try again." ∧
    (dispatch (skillHandlers env) ev).response.reprompt =
      some "Sorry, I had trouble doing what you asked. Please try again." ∧
    (dispatch (skillHandlers env) ev).fallbackRan = true ∧
    (∀ ev2 exc2, CatchAllExceptionHandler.can_handle ev2 exc2 = true) := by
  rw [dispatch_error (skillHandlers env) ev i h e hsel herr]
  exact ⟨rfl, rfl, rfl, fun _ _ => rfl⟩

/-- Witness for claim C5 at the no-screen StartOverIntent, whose action
raises a TypeError. -/
theorem claim_C5_witness :
    selectHandler (skillHandlers envEmpty) c5Event =
      some (4, StartOverIntentHandler.handler) ∧
    StartOverIntentHandler.handler.handleFn c5Event =
      Except.error "TypeError: unsupported operand types for +=: NoneType and str" ∧
    ((dispatch (skillHandlers envEmpty) c5Event).response.outputSpeech =
      some "Sorry, I had trouble doing what you asked. Please try again." ∧
    (dispatch (skillHandlers envEmpty) c5Event).response.reprompt =
      some "Sorry, I had trouble doing what you asked. Please try again." ∧
    (dispatch (skillHandlers envEmpty) c5Event).fallbackRan = true ∧
    (∀ ev2 exc2, CatchAllExceptionHandler.can_handle ev2 exc2 = true)) :=
  ⟨rfl, rfl, claim_C5 envEmpty c5Event 4 StartOverIntentHandler.handler
    "TypeError: unsupported operand types for +=: NoneType and str" rfl rfl⟩

/-- A concrete AMAZON.StopIntent request. -/
def c6Event : InboundEvent :=
  { kind := .intentRequest, intentName := some "AMAZON.StopIntent",
    eventSourceId := none, aplSupported := false, aplContextToken := none }

/-- Claim C6: a `AMAZON.StopIntent` or `AMAZON.CancelIntent` request
yields the goodbye speech, no reprompt, and a closed session. -/
theorem claim_C6 (env : Env) (ev : InboundEvent)
    (hk : ev.kind = RequestKind.intentRequest)
    (hn : ev.intentName = some "AMAZON.StopIntent" ∨
          ev.intentName = some "AMAZON.CancelIntent") :
    (dispatch (skillHandlers env) ev).response.outputSpeech = some "Goodbye!" ∧
    (dispatch (skillHandlers env) ev).response.reprompt = none ∧
    (dispatch (skillHandlers env) ev).response.shouldEndSession = true := by
  obtain ⟨k, n, s, a, c⟩ := ev
  simp only at hk hn
  subst hk
  rcases hn with hn | hn <;> subst hn <;> exact ⟨rfl, rfl, rfl⟩

/-- Witness for claim C6 at a concrete AMAZON.StopIntent request. -/
theorem claim_C6_witness :
    c6Event.kind = RequestKind.intentRequest ∧
    c6Event.intentName = some "AMAZON.StopIntent" ∧
    ((dispatch (skillHandlers envEmpty) c6Event).response.outputSpeech = some "Goodbye!" ∧
    (dispatch (skillHandlers envEmpty) c6Event).response.reprompt = none ∧
    (dispatch (skillHandlers envEmpty) c6Event).response.shouldEndSession = true) :=
  ⟨rfl, rfl, claim_C6 envEmpty c6Event rfl (Or.inl rfl)⟩

/-- A concrete LaunchRequest. -/
def c7Event : InboundEvent :=
  { kind := .launchRequest, intentName := none,
    eventSourceId := none, aplSupported := false, aplContextToken := none }

/-- Claim C7: a LaunchRequest yields a present, non-empty reprompt equal
to the welcome speech. -/
theorem claim_C7 (env : Env) (ev : InboundEvent)
    (hk : ev.kind = RequestKind.launchRequest) :
    (dispatch (skillHandlers env) ev).response.reprompt =
      some "Welcome Aman, you can say Hello or Help. Which would you like to try?" ∧
    (dispatch (skillHandlers env) ev).response.outputSpeech =
      (dispatch (skillHandlers env) ev).response.reprompt ∧
    "Welcome Aman, you can say Hello or Help. Which would you like to try?" ≠ "" := by
  obtain ⟨k, n, s, a, c⟩ := ev
  simp only at hk
  subst hk
  exact ⟨rfl, rfl, by decide⟩

/-- Witness for claim C7 at a concrete LaunchRequest. -/
theorem claim_C7_witness :
    c7Event.kind = RequestKind.launchRequest ∧
    ((dispatch (skillHandlers envEmpty) c7Event).response.reprompt =
      some "Welcome Aman, you can say Hello or Help. Which would you like to try?" ∧
    (dispatch (skillHandlers envEmpty) c7Event).response.outputSpeech =
      (dispatch (skillHandlers envEmpty) c7Event).response.reprompt ∧
    "Welcome Aman, you can say Hello or Help. Which would you like to try?" ≠ "") :=
  ⟨rfl, claim_C7 envEmpty c7Event rfl⟩

/-- Claim C8: dispatch reads no mutable state — two document stores that
agree on the two fixed layout-document files dispatch every event to the
identical outcome, so repeated invocations with an identical event yield
identical responses. -/
theorem claim_C8 (env1 env2 : Env) (ev : InboundEvent)
    (hdoc : env1 hello_world_doc_path = env2 hello_world_doc_path)
    (hbutton : env1 hello_world_button_doc_path = env2 hello_world_button_doc_path) :
    dispatch (skillHandlers env1) ev = dispatch (skillHandlers env2) ev := by
  apply dispatch_congr ev
  unfold skillHandlers
  exact List.Forall₂.cons ⟨rfl, rfl⟩
    (List.Forall₂.cons ⟨rfl, helloWorld_handle_reads_only_doc env1 env2 hdoc ev⟩
    (List.Forall₂.cons
      ⟨rfl, helloWorldWithButton_handle_reads_only_doc env1 env2 hbutton ev⟩
    (List.Forall₂.cons ⟨rfl, rfl⟩ (List.Forall₂.cons ⟨rfl, rfl⟩
    (List.Forall₂.cons ⟨rfl, rfl⟩ (List.Forall₂.cons ⟨rfl, rfl⟩
    (List.Forall₂.cons ⟨rfl, rfl⟩ (List.Forall₂.cons ⟨rfl, rfl⟩
    (List.Forall₂.cons ⟨rfl, rfl⟩ (List.Forall₂.cons ⟨rfl, rfl⟩
      List.Forall₂.nil))))))))))

/-- The identity document store. -/
def envId : Env := fun p => p

/-- A document store agreeing with `envId` on the two layout-document
files and nowhere else. -/
def envJunk : Env := fun p => if p = "junk.json" then "junk" else p

/-- A concrete HelloWorldIntent request with screen support, which makes
dispatch read the document store. -/
def c8Event : InboundEvent :=
  { kind := .intentRequest, intentName := some "HelloWorldIntent",
    eventSourceId := none, aplSupported := true, aplContextToken := none }

/-- Witness for claim C8 at two distinct stores agreeing on the layout
files. -/
theorem claim_C8_witness :
    envId hello_world_doc_path = envJunk hello_world_doc_path ∧
    envId hello_world_button_doc_path = envJunk hello_world_button_doc_path ∧
    dispatch (skillHandlers envId) c8Event = dispatch (skillHandlers envJunk) c8Event :=
  ⟨rfl, rfl, claim_C8 envId envJunk c8Event rfl rfl⟩

/-- Claim C9: per dispatched turn at most one registered handler's
action executes, and the fallback executes exactly when no predicate
matched or the selected action raised — never in a turn where the
selected action returned normally. -/
theorem claim_C9 (env : Env) (ev : InboundEvent) :
    (dispatch (skillHandlers env) ev).executedActions.length ≤ 1 ∧
    ((dispatch (skillHandlers env) ev).fallbackRan = true ↔
      selectHandler (skillHandlers env) ev = none ∨
      ∃ i h, selectHandler (skillHandlers env) ev = some (i, h) ∧
        ∃ e, h.handleFn ev = Except.error e) :=
  dispatch_spec (skillHandlers env) ev

/-- A concrete APL UserEvent from a source other than the fade button. -/
def c10Event : InboundEvent :=
  { kind := .userEvent, intentName := none,
    eventSourceId := some "otherButton", aplSupported := true,
    aplContextToken := none }

/-- Claim C10: an APL UserEvent whose source id is not
`fadeHelloTextButton` is rejected by `HelloWorldButtonEventHandler` and
by every other registered predicate, so no handler is selected and the
event is unroutable. -/
theorem claim_C10 (env : Env) (ev : InboundEvent)
    (hk : ev.kind = RequestKind.userEvent)
    (hs : ev.eventSourceId ≠ some "fadeHelloTextButton") :
    HelloWorldButtonEventHandler.can_handle ev = false ∧
    (∀ h ∈ skillHandlers env, h.canHandle ev = false) ∧
    selectHandler (skillHandlers env) ev = none := by
  obtain ⟨k, n, s, a, c⟩ := ev
  simp only at hk hs
  subst hk
  have hbtn : HelloWorldButtonEventHandler.can_handle
      ⟨RequestKind.userEvent, n, s, a, c⟩ = false := by
    show (s == some "fadeHelloTextButton") = false
    exact beq_eq_false_iff_ne.mpr hs
  have hall : ∀ h ∈ skillHandlers env,
      h.canHandle ⟨RequestKind.userEvent, n, s, a, c⟩ = false := by
    intro h hm
    simp only [skillHandlers, List.mem_cons, List.not_mem_nil, or_false] at hm
    rcases hm with rfl | rfl | rfl | rfl | rfl | rfl | rfl | rfl | rfl | rfl | rfl
    · rfl
    · rfl
    · rfl
    · exact hbtn
    · rfl
    · rfl
    · rfl
    · rfl
    · rfl
    · rfl
    · rfl
  exact ⟨hbtn, hall, selectHandlerAux_eq_none _ _ 0 hall⟩

/-- Witness for claim C10 at a concrete UserEvent from another button. -/
theorem claim_C10_witness :
    c10Event.kind = RequestKind.userEvent ∧
    c10Event.eventSourceId ≠ some "fadeHelloTextButton" ∧
    (HelloWorldButtonEventHandler.can_handle c10Event = false ∧
    (∀ h ∈ skillHandlers envEmpty, h.canHandle c10Event = false) ∧
    selectHandler (skillHandlers envEmpty) c10Event = none) :=
  ⟨rfl, by decide, claim_C10 envEmpty c10Event rfl (by decide)⟩
